import Mathlib

/-!
Verification of the JWT authentication subsystem of the
Flask-Advanced-Authentication repository (package `backend/admin/auth`).

The Python code is shallowly embedded: Python runtime values that flow
through the subsystem are modelled by `PyVal`, raised exceptions by
`PyErr`, and every fallible operation returns `Except PyErr _`.  Each
Lean definition mirrors one Python function or method of the source,
including its argument-binding behaviour: in particular the module
embeds, faithfully, how `JWTAuthenticationRules.disallow_none` is
declared without a `self` parameter (jwt_rules.py line 177), how
`BlackListed.is_blacklisted` calls `get_blacklisted()` without the
required positional argument (blacklist_token.py line 131), and how
`TokenFactory.generate_token` passes the keyword argument `type=` to
`create_token`, whose parameter is named `token_type` (factory.py
lines 82 and 178).

Wall-clock time is passed explicitly as an integer `now` (a Unix
timestamp in seconds); `datetime.now(timezone.utc)` in the source
becomes this parameter.  The third-party `jwt` library (PyJWT) is not
part of the repository; it is modelled as an ideal signed container:
`jwt.encode` packs the serialized payload together with the signing key
and algorithm, and `jwt.decode` succeeds exactly when the presented key
and algorithm match the packed ones and the `exp` claim, when present,
is not in the past.  Signature forgery and hash collisions are outside
the model.
-/

namespace FlaskAuth

/-- A Python runtime value of the authentication subsystem: `None`,
strings, booleans, integers, `datetime.timedelta` (in seconds),
`datetime.datetime` (a Unix timestamp), the
`JWTAuthenticationRules` singleton instance itself (which leaks into
data positions through the `disallow_none` bug), dictionaries, and
encoded JWT strings (idealized as the payload packed with the signing
key and algorithm). -/
inductive PyVal where
  | pynone : PyVal
  | str (s : String) : PyVal
  | boolV (b : Bool) : PyVal
  | intV (n : Int) : PyVal
  | timedelta (seconds : Int) : PyVal
  | datetime (ts : Int) : PyVal
  | registryObj : PyVal
  | dict (entries : List (String × PyVal)) : PyVal
  | jwt (payload : List (String × PyVal)) (key : String) (alg : String) : PyVal
  deriving Repr

/-- A raised Python exception, by class.  `jwtFieldValueError` is the
package exception `JWTFieldValueError` from exceptions.py. -/
inductive PyErr where
  | typeError (msg : String)
  | attributeError (msg : String)
  | jwtFieldValueError
  | valueError (msg : String)
  | importError (msg : String)
  | notImplementedError (msg : String)
  deriving Repr, DecidableEq

mutual

/-- Python `==` on the embedded values (structural equality). -/
def PyVal.beq : PyVal → PyVal → Bool
  | .pynone, .pynone => true
  | .str a, .str b => a == b
  | .boolV a, .boolV b => a == b
  | .intV a, .intV b => a == b
  | .timedelta a, .timedelta b => a == b
  | .datetime a, .datetime b => a == b
  | .registryObj, .registryObj => true
  | .dict d, .dict e => PyVal.beqEntries d e
  | .jwt p k a, .jwt q k2 a2 => PyVal.beqEntries p q && k == k2 && a == a2
  | _, _ => false

/-- Entry-wise equality of two Python dictionaries (as ordered
association lists). -/
def PyVal.beqEntries : List (String × PyVal) → List (String × PyVal) → Bool
  | [], [] => true
  | (k1, v1) :: t1, (k2, v2) :: t2 =>
      k1 == k2 && PyVal.beq v1 v2 && PyVal.beqEntries t1 t2
  | _, _ => false

end

/-- Python truthiness of an embedded value (`bool(v)`). -/
def pyTruthy : PyVal → Bool
  | .pynone => false
  | .str s => !s.isEmpty
  | .boolV b => b
  | .intV n => n != 0
  | .timedelta s => s != 0
  | .datetime _ => true
  | .registryObj => true
  | .dict d => !d.isEmpty
  | .jwt _ _ _ => true

/-- Python `d.get(k)` on a dictionary known to be a dictionary: the
stored value, or `None` when the key is absent. -/
def dictGet (d : List (String × PyVal)) (k : String) : PyVal :=
  match d.find? (fun kv => kv.1 == k) with
  | some kv => kv.2
  | none => PyVal.pynone

/-- Python `v.get(k)` on an arbitrary value: dictionaries answer the
lookup, anything else (in particular `None` and strings, which both
reach this call in jwt_rules.py) raises `AttributeError`. -/
def pyvalGet (v : PyVal) (key : String) : Except PyErr PyVal :=
  match v with
  | .dict d => Except.ok (dictGet d key)
  | .pynone => Except.error (PyErr.attributeError "NoneType object has no attribute get")
  | _ => Except.error (PyErr.attributeError "object has no attribute get")

/-- Python `d1.update(d2)`: keys present in both keep their position in
`d1` and take the value from `d2`; keys only in `d2` are appended in
order. -/
def dictUpdate (d1 d2 : List (String × PyVal)) : List (String × PyVal) :=
  d1.map (fun kv =>
    match d2.find? (fun kv2 => kv2.1 == kv.1) with
    | some kv2 => (kv.1, kv2.2)
    | none => kv)
  ++ d2.filter (fun kv2 => !(d1.any (fun kv => kv.1 == kv2.1)))

/-- The process-wide `JWTAuthenticationRules` registry after a
successful `initialize_jwt_authentication`: the validated rules (one
field dictionary per rule name, in registration order) and the default
rule name (checked at registration to be one of the keys). -/
structure JWTAuthenticationRules where
  rules : List (String × List (String × PyVal))
  default_rule : String

/-- Python `self.rules.get(name)`: the rule dictionary registered under
`name`, if any. -/
def lookupRule (reg : JWTAuthenticationRules) (name : String) :
    Option (List (String × PyVal)) :=
  (reg.rules.find? (fun kv => kv.1 == name)).map Prod.snd

/-- Embeds `JWTAuthenticationRules.get_rule` (jwt_rules.py lines
161-175).  For `rule = None` the source executes
`return self.default_rule`, which is the default rule NAME (a string),
not the rule dictionary; for a named rule it executes
`return self.rules.get(rule)`, which is the dictionary, or `None` for
an unknown name. -/
def JWTAuthenticationRules.get_rule (self : JWTAuthenticationRules)
    (rule : Option String) : PyVal :=
  match rule with
  | none => PyVal.str self.default_rule
  | some r =>
      match lookupRule self r with
      | some d => PyVal.dict d
      | none => PyVal.pynone

/-- Embeds a bound call `self.disallow_none(v, msg)` (jwt_rules.py
lines 177-195).  The method is declared as
`def disallow_none(value, error_message, *args, **kwargs)` without a
`self` parameter, so at every call site Python binds the instance to
`value`, the field value `v` to `error_message`, and the message to
`args`.  The `value is None` test therefore inspects the instance,
which is never `None`, and the method returns the instance.  The first
argument below is the bound instance, the second is the field value
that the source intended to check. -/
def disallow_none_boundCall (boundValue : PyVal) (_error_message : PyVal) :
    Except PyErr PyVal :=
  match boundValue with
  | .pynone => Except.error PyErr.jwtFieldValueError
  | v => Except.ok v

/-- Embeds `JWTAuthenticationRules.get_secret_key` (jwt_rules.py lines
197-222): resolve `None` to the default rule name, fetch the rule
dictionary, read `secret_key`, and pass it through `disallow_none` --
whose bound call receives the instance as `value`. -/
def JWTAuthenticationRules.get_secret_key (self : JWTAuthenticationRules)
    (rule_name : Option String) : Except PyErr PyVal := do
  let rn : String := rule_name.getD self.default_rule
  let rule : PyVal := self.get_rule (some rn)
  let v ← pyvalGet rule "secret_key"
  disallow_none_boundCall PyVal.registryObj v

/-- Embeds `JWTAuthenticationRules.get_algorithm` (jwt_rules.py lines
224-249), same shape as `get_secret_key` for the `algorithm` field. -/
def JWTAuthenticationRules.get_algorithm (self : JWTAuthenticationRules)
    (rule_name : Option String) : Except PyErr PyVal := do
  let rn : String := rule_name.getD self.default_rule
  let rule : PyVal := self.get_rule (some rn)
  let v ← pyvalGet rule "algorithm"
  disallow_none_boundCall PyVal.registryObj v

/-- Embeds `JWTAuthenticationRules.get_token_lifetime` (jwt_rules.py
lines 251-277): reads the field named `token_type + "_expires_in"` and
passes it through `disallow_none`. -/
def JWTAuthenticationRules.get_token_lifetime (self : JWTAuthenticationRules)
    (rule_name : Option String) (token_type : String) : Except PyErr PyVal := do
  let rn : String := rule_name.getD self.default_rule
  let rule : PyVal := self.get_rule (some rn)
  let v ← pyvalGet rule (token_type ++ "_expires_in")
  disallow_none_boundCall PyVal.registryObj v

/-- Embeds `JWTAuthenticationRules.get_table` (jwt_rules.py lines
297-302).  No `None` resolution happens here: the raw `rule_name` goes
straight to `get_rule`, so a `None` rule name yields the default rule
NAME string, whose `.get` raises `AttributeError`. -/
def JWTAuthenticationRules.get_table (self : JWTAuthenticationRules)
    (rule_name : Option String) : Except PyErr PyVal :=
  pyvalGet (self.get_rule rule_name) "table"

/-- Embeds `JWTAuthenticationRules.get_table_path` (jwt_rules.py lines
304-342), with `None` resolution and `disallow_none`. -/
def JWTAuthenticationRules.get_table_path (self : JWTAuthenticationRules)
    (rule_name : Option String) : Except PyErr PyVal := do
  let rn : String := rule_name.getD self.default_rule
  let rule : PyVal := self.get_rule (some rn)
  let v ← pyvalGet rule "table_path"
  disallow_none_boundCall PyVal.registryObj v

/-- Embeds `JWTAuthenticationRules.get_token_header` (jwt_rules.py
lines 344-381), with `None` resolution and `disallow_none`. -/
def JWTAuthenticationRules.get_token_header (self : JWTAuthenticationRules)
    (rule_name : Option String) : Except PyErr PyVal := do
  let rn : String := rule_name.getD self.default_rule
  let rule : PyVal := self.get_rule (some rn)
  let v ← pyvalGet rule "token_header"
  disallow_none_boundCall PyVal.registryObj v

/-- Embeds `JWTAuthenticationRules.get_track_created` (jwt_rules.py
lines 383-390); like `get_table`, no `None` resolution. -/
def JWTAuthenticationRules.get_track_created (self : JWTAuthenticationRules)
    (rule_name : Option String) : Except PyErr PyVal :=
  pyvalGet (self.get_rule rule_name) "track_created"

/-- Embeds `JWTAuthenticationRules.get_track_created_table_path`
(jwt_rules.py lines 392-430), with `None` resolution and
`disallow_none`. -/
def JWTAuthenticationRules.get_track_created_table_path
    (self : JWTAuthenticationRules) (rule_name : Option String) :
    Except PyErr PyVal := do
  let rn : String := rule_name.getD self.default_rule
  let rule : PyVal := self.get_rule (some rn)
  let v ← pyvalGet rule "track_created_table_path"
  disallow_none_boundCall PyVal.registryObj v

/-- Embeds `JWTAuthenticationRules.get_track_created_allow_duplicates`
(jwt_rules.py lines 432-439); no `None` resolution. -/
def JWTAuthenticationRules.get_track_created_allow_duplicates
    (self : JWTAuthenticationRules) (rule_name : Option String) :
    Except PyErr PyVal :=
  pyvalGet (self.get_rule rule_name) "track_created_allow_duplicates"

/-- Embeds `JWTAuthenticationRules.get_blacklisted` (jwt_rules.py lines
441-448); no `None` resolution. -/
def JWTAuthenticationRules.get_blacklisted (self : JWTAuthenticationRules)
    (rule_name : Option String) : Except PyErr PyVal :=
  pyvalGet (self.get_rule rule_name) "blacklisted"

/-- Embeds `JWTAuthenticationRules.get_blacklisted_tabled_path`
(jwt_rules.py lines 450-488), with `None` resolution and
`disallow_none`. -/
def JWTAuthenticationRules.get_blacklisted_tabled_path
    (self : JWTAuthenticationRules) (rule_name : Option String) :
    Except PyErr PyVal := do
  let rn : String := rule_name.getD self.default_rule
  let rule : PyVal := self.get_rule (some rn)
  let v ← pyvalGet rule "blacklisted_table_path"
  disallow_none_boundCall PyVal.registryObj v

/-- A model class resolved from an import path: the only attribute the
subsystem reads is `__tablename__`. -/
structure ModelClass where
  tablename : String
  deriving Repr, DecidableEq

/-- The persistence collaborator as the subsystem sees it: the modules
importable by path (mapping an import path to the model class it
denotes) and the stored rows, one list of attribute dictionaries per
`__tablename__`. -/
structure Database where
  models : List (String × ModelClass)
  rows : List (String × List (List (String × PyVal)))

/-- Embeds `import_handler.grab` (import_handler.py lines 43-78) with
`validate_path` and `parse_path`: a non-string or empty path raises
`ValueError`, which `grab` catches and re-raises as `ImportError`; a
path without a dot likewise; an unknown path raises `ImportError`; a
known path yields the model class. -/
def ImportHandler.grab (db : Database) (path : PyVal) : Except PyErr ModelClass :=
  match path with
  | .str s =>
      if s.isEmpty then
        Except.error (PyErr.importError "Invalid object path")
      else if (s.splitOn ".").length < 2 then
        Except.error (PyErr.importError "Invalid object path")
      else
        match db.models.find? (fun kv => kv.1 == s) with
        | some kv => Except.ok kv.2
        | none => Except.error (PyErr.importError "Module could not be found")
  | _ =>
      Except.error
        (PyErr.importError "Invalid object path: object path must be a non-empty string")

/-- Embeds `ModelManager.get_model` (model_managers.py lines 54-64),
which delegates to `Database.get_model_by_path`, i.e. to
`import_handler.grab`. -/
def ModelManager.get_model (db : Database) (model_path : PyVal) :
    Except PyErr ModelClass :=
  ImportHandler.grab db model_path

/-- The rows currently stored under a table name. -/
def Database.tableRows (db : Database) (tablename : String) :
    List (List (String × PyVal)) :=
  match db.rows.find? (fun kv => kv.1 == tablename) with
  | some kv => kv.2
  | none => []

/-- One row satisfies a `filter_by(**kwargs)` equality predicate. -/
def rowMatches (row : List (String × PyVal)) (kwargs : List (String × PyVal)) : Bool :=
  kwargs.all (fun kv => PyVal.beq (dictGet row kv.1) kv.2)

/-- Embeds `ModelManager.get_instance` /
`Database.model_instance_exists` (model_managers.py lines 75-94,
database.py lines 118-129): `query(model).filter_by(**kwargs).first()`,
the first matching row or `None`. -/
def ModelManager.get_instance (db : Database) (model : ModelClass)
    (kwargs : List (String × PyVal)) : PyVal :=
  match (db.tableRows model.tablename).find? (fun row => rowMatches row kwargs) with
  | some row => PyVal.dict row
  | none => PyVal.pynone

/-- Embeds `ModelManager.register` / `Database.create_instance`
(model_managers.py lines 66-68, database.py lines 131-141): the new
row is added to its table and committed. -/
def ModelManager.register (db : Database) (model : ModelClass)
    (row : List (String × PyVal)) : Database :=
  ⟨db.models,
    if db.rows.any (fun kv => kv.1 == model.tablename) then
      db.rows.map (fun kv =>
        if kv.1 == model.tablename then (kv.1, kv.2 ++ [row]) else kv)
    else
      db.rows ++ [(model.tablename, [row])]⟩

/-- Values the standard JSON encoder used by `jwt.encode` serializes
directly. -/
def PyVal.isJsonAtom : PyVal → Bool
  | .pynone => true
  | .str _ => true
  | .boolV _ => true
  | .intV _ => true
  | _ => false

/-- Serialization of one claim by `jwt.encode` (PyJWT library,
modelled): a `datetime` stored under `exp`, `iat` or `nbf` becomes its
integer timestamp; any other non-JSON value raises `TypeError`. -/
def serializeClaimValue (k : String) (v : PyVal) : Except PyErr PyVal :=
  match v with
  | .datetime ts =>
      if k == "exp" || k == "iat" || k == "nbf" then Except.ok (PyVal.intV ts)
      else Except.error (PyErr.typeError "Object of type datetime is not JSON serializable")
  | v =>
      if v.isJsonAtom then Except.ok v
      else Except.error (PyErr.typeError "Object is not JSON serializable")

/-- Serialization of a whole payload by `jwt.encode` (PyJWT library,
modelled). -/
def serializePayload : List (String × PyVal) → Except PyErr (List (String × PyVal))
  | [] => Except.ok []
  | (k, v) :: rest => do
      let v2 ← serializeClaimValue k v
      let rest2 ← serializePayload rest
      Except.ok ((k, v2) :: rest2)

/-- The keyword arguments `jwt.encode` accepts besides the positional
ones. -/
def jwtEncodeKwargNames : List String := ["headers", "json_encoder", "sort_headers"]

/-- The `jwt.encode` function of the PyJWT library, modelled as an ideal
signed container: an unexpected keyword argument raises `TypeError`
(this is how the stray `type=...` forwarded by the factory would fail);
a non-string algorithm is not found in the algorithm registry and
raises `NotImplementedError`; a non-string key raises `TypeError` from
`prepare_key`; otherwise the serialized payload is packed together with
the key and algorithm. -/
def jwt_encode (payload : List (String × PyVal)) (key : PyVal) (algorithm : PyVal)
    (kwargs : List String) : Except PyErr PyVal :=
  if !(kwargs.all (fun k => jwtEncodeKwargNames.contains k)) then
    Except.error (PyErr.typeError "encode got an unexpected keyword argument")
  else
    match algorithm with
    | .str alg =>
        match key with
        | .str k => do
            let ser ← serializePayload payload
            Except.ok (PyVal.jwt ser k alg)
        | _ => Except.error (PyErr.typeError "Expecting a string- or bytes-formatted key")
    | _ => Except.error (PyErr.notImplementedError "Algorithm not supported")

/-- Errors of `jwt.decode` (PyJWT library, modelled).  All but
`keyTypeError` are subclasses of `InvalidTokenError`; `keyTypeError` is
the plain `TypeError` raised by `prepare_key` for a non-string key. -/
inductive JwtDecodeErr where
  | decodeError
  | invalidAlgorithm
  | invalidSignature
  | expiredSignature
  | keyTypeError
  deriving Repr, DecidableEq

/-- The `jwt.decode` function of the PyJWT library, modelled on the
ideal signed container, in the order of the library checks: a
non-token value is malformed (`DecodeError`); then the header algorithm
must be a member of the `algorithms` list (here the one-element list
built by the proxy) -- mismatch is `InvalidAlgorithmError`; then the
key is prepared (`TypeError` for a non-string) and verified
(`InvalidSignatureError` on mismatch); finally an integer `exp` claim
in the past is `ExpiredSignatureError` and a non-integer `exp` is
`DecodeError`. -/
def jwt_decode (token : PyVal) (key : PyVal) (algorithm : PyVal) (now : Int) :
    Except JwtDecodeErr (List (String × PyVal)) :=
  match token with
  | .jwt payload sigKey sigAlg =>
      if !(PyVal.beq algorithm (PyVal.str sigAlg)) then
        Except.error JwtDecodeErr.invalidAlgorithm
      else
        match key with
        | .str k =>
            if k != sigKey then Except.error JwtDecodeErr.invalidSignature
            else
              match payload.find? (fun kv => kv.1 == "exp") with
              | some kv =>
                  match kv.2 with
                  | .intV exp =>
                      if exp < now then Except.error JwtDecodeErr.expiredSignature
                      else Except.ok payload
                  | _ => Except.error JwtDecodeErr.decodeError
              | none => Except.ok payload
        | _ => Except.error JwtDecodeErr.keyTypeError
  | _ => Except.error JwtDecodeErr.decodeError

/-- Embeds `PyJWT.required_payload` (TokenProxy.py lines 46-53):
a dictionary mapping `type` to the token type and `exp` to
`datetime.now(timezone.utc) + lifetime`,
where the lifetime comes from
`JWTAuthenticationRules.get_token_lifetime`.  The addition raises
`TypeError` unless the lifetime is a `timedelta`. -/
def pyDatetimeAdd (now : Int) (v : PyVal) : Except PyErr PyVal :=
  match v with
  | .timedelta s => Except.ok (PyVal.datetime (now + s))
  | _ => Except.error (PyErr.typeError "unsupported operand types for +")

/-- Embeds `PyJWT.required_payload` (TokenProxy.py lines 46-53). -/
def PyJWT.required_payload (reg : JWTAuthenticationRules)
    (rule_name : Option String) (token_type : String) (now : Int) :
    Except PyErr (List (String × PyVal)) := do
  let token_lifetime ← reg.get_token_lifetime rule_name token_type
  let exp ← pyDatetimeAdd now token_lifetime
  Except.ok [("type", PyVal.str token_type), ("exp", exp)]

/-- Embeds `PyJWT.encode_token` (TokenProxy.py lines 55-63): a direct
call of `jwt.encode`, forwarding any extra keyword arguments. -/
def PyJWT.encode_token (payload : List (String × PyVal)) (secret_key : PyVal)
    (algorithm : PyVal) (kwargs : List String) : Except PyErr PyVal :=
  jwt_encode payload secret_key algorithm kwargs

/-- Embeds `PyJWT.decode_token` (TokenProxy.py lines 65-88): calls
`jwt.decode` with `algorithms=[algorithm]` and returns `None` on
`ExpiredSignatureError` or `InvalidTokenError`; any other exception
(such as the `TypeError` for a non-string key) propagates. -/
def PyJWT.decode_token (token : PyVal) (secret_key : PyVal) (algorithm : PyVal)
    (now : Int) : Except PyErr PyVal :=
  match jwt_decode token secret_key algorithm now with
  | Except.ok payload => Except.ok (PyVal.dict payload)
  | Except.error JwtDecodeErr.keyTypeError =>
      Except.error (PyErr.typeError "Expecting a string- or bytes-formatted key")
  | Except.error _ => Except.ok PyVal.pynone

/-- Embeds `TokenFactory.check_extra_payload` (factory.py lines
345-360): raises `ValueError` unless the extra payload is a
dictionary. -/
def TokenFactory.check_extra_payload (extra_payload : PyVal) :
    Except PyErr PyVal :=
  match extra_payload with
  | .dict d => Except.ok (PyVal.dict d)
  | _ => Except.error (PyErr.valueError "Extra payload must be a dictionary")

/-- Embeds `TokenFactory.instance_id_payload` (factory.py lines
255-301): a `None` instance id raises `ValueError`; the table path is
read with `get_track_created_table_path` (NOT the entity
`get_table_path`); the model is resolved from it; unless existence
checking is ignored, a missing instance raises `ValueError`; the result
maps the key `tablename ++ "_id"` to the instance id. -/
def TokenFactory.instance_id_payload (reg : JWTAuthenticationRules)
    (db : Database) (rule_name : Option String) (instance_id : PyVal)
    (ignore_model_instance_existance : Bool) :
    Except PyErr (List (String × PyVal)) :=
  match instance_id with
  | .pynone => Except.error (PyErr.valueError "Instance ID cannot be None")
  | _ => do
      let table_path ← reg.get_track_created_table_path rule_name
      let model_class ← ModelManager.get_model db table_path
      let table_name := model_class.tablename
      if !ignore_model_instance_existance &&
         !(pyTruthy (ModelManager.get_instance db model_class
            [("id", instance_id)])) then
        Except.error (PyErr.valueError "Instance does not exist in table")
      else
        Except.ok [(table_name ++ "_id", instance_id)]

/-- The `rule_name` argument as a payload value (`None` or the
string). -/
def ruleNameVal : Option String → PyVal
  | none => PyVal.pynone
  | some s => PyVal.str s

/-- Embeds `TokenFactory.build_payload` (factory.py lines 362-402):
required claims first (`required_payload`), then the entity id claim if
the `table` flag is set, then `rule_name` if requested, then the
caller extra payload merged last by `payload.update(...)`. -/
def TokenFactory.build_payload (reg : JWTAuthenticationRules) (db : Database)
    (token_type : String) (rule_name : Option String) (instance_id : PyVal)
    (extra_payload : PyVal) (include_rule_name : Bool)
    (ignore_model_instance_existance : Bool) (now : Int) :
    Except PyErr (List (String × PyVal)) := do
  let payload ← PyJWT.required_payload reg rule_name token_type now
  let tableFlag ← reg.get_table rule_name
  let payload ←
    if pyTruthy tableFlag then do
      let idPart ← TokenFactory.instance_id_payload reg db rule_name instance_id
        ignore_model_instance_existance
      pure (dictUpdate payload idPart)
    else pure payload
  let payload :=
    if include_rule_name then dictUpdate payload [("rule_name", ruleNameVal rule_name)]
    else payload
  let payload ←
    if pyTruthy extra_payload then do
      let checked ← TokenFactory.check_extra_payload extra_payload
      match checked with
      | .dict d => pure (dictUpdate payload d)
      | _ => pure payload
    else pure payload
  Except.ok payload

/-- Embeds `TokenFactory.create_token` (factory.py lines 178-218):
build the payload, then encode it with the rule secret key and
algorithm, forwarding the stray keyword arguments into `jwt.encode`.
Both `generate_token` and `generate_refresh_token` call it as
`create_token(type=..., ...)`, and `type` is not one of its parameter
names, so the intended token type lands in `**kwargs` (here the
`kwargs` name list) while the `token_type` parameter keeps its default
value `"access"`. -/
def TokenFactory.create_token (reg : JWTAuthenticationRules) (db : Database)
    (token_type : String) (rule_name : Option String) (instance_id : PyVal)
    (extra_payload : PyVal) (include_rule_name : Bool)
    (ignore_model_instance_existance : Bool) (kwargs : List String) (now : Int) :
    Except PyErr PyVal := do
  let payload ← TokenFactory.build_payload reg db token_type rule_name instance_id
    extra_payload include_rule_name ignore_model_instance_existance now
  let sk ← reg.get_secret_key rule_name
  let alg ← reg.get_algorithm rule_name
  PyJWT.encode_token payload sk alg kwargs

/-- Embeds `TokenFactory.track_token` (factory.py lines 303-342):
resolve the track table path and model, read the duplicates flag, and
when duplicates are disallowed and a row keyed by `instance_id` already
exists, raise `ValueError("Token already exists for the instance ID")`;
otherwise insert the new `TrackModel` row.  The returned database is
the state after the call; every raise in the source happens before the
single insert, so an error leaves the database unchanged. -/
def TokenFactory.track_token (reg : JWTAuthenticationRules) (db : Database)
    (rule_name : Option String) (token : PyVal) (instance_id : PyVal)
    (token_type : String) (additional_track_token_fields : List (String × PyVal)) :
    Except PyErr Database := do
  let track_table_path ← reg.get_track_created_table_path rule_name
  let trackModel ← ModelManager.get_model db track_table_path
  let allow_duplicates ← reg.get_track_created_allow_duplicates rule_name
  if !(pyTruthy allow_duplicates) &&
     pyTruthy (ModelManager.get_instance db trackModel
        [("instance_id", instance_id)]) then
    Except.error (PyErr.valueError "Token already exists for the instance ID")
  else
    Except.ok (ModelManager.register db trackModel
      (dictUpdate
        [("token", token), ("instance_id", instance_id),
         ("token_type", PyVal.str token_type)]
        additional_track_token_fields))

/-- Embeds `TokenFactory.generate_token` (factory.py lines 54-102):
`create_token(type="access", ...)` -- the `type` keyword is captured by
`**kwargs** and forwarded towards `jwt.encode`, while `token_type`
keeps its default `"access"` -- then, if the rule tracks created
tokens, `track_token`.  The result pairs the returned value or raised
exception with the database state after the call. -/
def TokenFactory.generate_token (reg : JWTAuthenticationRules) (db : Database)
    (rule_name : Option String) (instance_id : PyVal) (extra_payload : PyVal)
    (include_rule_name : Bool) (ignore_model_instance_existance : Bool)
    (additional_track_token_fields : List (String × PyVal)) (now : Int) :
    Except PyErr PyVal × Database :=
  match TokenFactory.create_token reg db "access" rule_name instance_id
      extra_payload include_rule_name ignore_model_instance_existance
      ["type"] now with
  | Except.error e => (Except.error e, db)
  | Except.ok token =>
      match reg.get_track_created rule_name with
      | Except.error e => (Except.error e, db)
      | Except.ok flag =>
          if pyTruthy flag then
            match TokenFactory.track_token reg db rule_name token instance_id
                "access" additional_track_token_fields with
            | Except.error e => (Except.error e, db)
            | Except.ok db2 => (Except.ok token, db2)
          else (Except.ok token, db)

/-- Embeds `TokenFactory.generate_refresh_token` (factory.py lines
105-155): identical to `generate_token` with `token_type = "refresh"`,
but the `type=` keyword again misses the `token_type` parameter of
`create_token`, so the payload is still built with the default
`"access"` type. -/
def TokenFactory.generate_refresh_token (reg : JWTAuthenticationRules)
    (db : Database) (rule_name : Option String) (instance_id : PyVal)
    (extra_payload : PyVal) (include_rule_name : Bool)
    (ignore_model_instance_existance : Bool)
    (additional_track_token_fields : List (String × PyVal)) (now : Int) :
    Except PyErr PyVal × Database :=
  match TokenFactory.create_token reg db "access" rule_name instance_id
      extra_payload include_rule_name ignore_model_instance_existance
      ["type"] now with
  | Except.error e => (Except.error e, db)
  | Except.ok token =>
      match reg.get_track_created rule_name with
      | Except.error e => (Except.error e, db)
      | Except.ok flag =>
          if pyTruthy flag then
            match TokenFactory.track_token reg db rule_name token instance_id
                "refresh" additional_track_token_fields with
            | Except.error e => (Except.error e, db)
            | Except.ok db2 => (Except.ok token, db2)
          else (Except.ok token, db)

/-- Embeds `TokenFactory.validate_token` (factory.py lines 157-176):
delegate to `decode_token` with the rule secret key and algorithm. -/
def TokenFactory.validate_token (reg : JWTAuthenticationRules) (token : PyVal)
    (rule_name : Option String) (now : Int) : Except PyErr PyVal := do
  let sk ← reg.get_secret_key rule_name
  let alg ← reg.get_algorithm rule_name
  PyJWT.decode_token token sk alg now

/-- Embeds the call `self.__rule_handler.get_blacklisted()` on line 131
of blacklist_token.py: `get_blacklisted` declares `rule_name` as a
required positional parameter and the call supplies no argument, so
Python raises `TypeError` before the blacklist flag is read. -/
def getBlacklistedCallNoArguments : Except PyErr PyVal :=
  Except.error
    (PyErr.typeError "get_blacklisted missing 1 required positional argument rule_name")

/-- Embeds `BlackListed.is_blacklisted` (blacklist_token.py lines
120-138): first the flag read via the argument-less
`get_blacklisted()` call (which raises `TypeError`), then -- were that
reachable -- the short-circuit `False`, the blacklist table resolution
and the existence lookup by token. -/
def BlackListed.is_blacklisted (reg : JWTAuthenticationRules) (db : Database)
    (rule_name : Option String) (token : PyVal) : Except PyErr PyVal := do
  let flag ← getBlacklistedCallNoArguments
  if !(pyTruthy flag) then Except.ok (PyVal.boolV false)
  else do
    let model_path ← reg.get_blacklisted_tabled_path rule_name
    let model ← ModelManager.get_model db model_path
    Except.ok (ModelManager.get_instance db model [("token", token)])

/-- An incoming HTTP request as the subsystem could see it: named
headers and query parameters. -/
structure HttpRequest where
  headers : List (String × String)
  query_params : List (String × String)

/-- Embeds `BaseAuthentication.parse_token` (authentication_classes.py
lines 31-33): the body is only `pass`, so the method returns `None`
for every request; no header and no query parameter is read, and no
`token_header` prefix is stripped. -/
def BaseAuthentication.parse_token (_request : HttpRequest) : PyVal :=
  PyVal.pynone

/-- Embeds `AuthenticateJWT.validate_token` (authentication_classes.py
lines 61-66): `TokenFactory().validate_token` under a blanket
`except`, so any exception becomes `None`. -/
def AuthenticateJWT.validate_token (reg : JWTAuthenticationRules)
    (rule_name : Option String) (token : PyVal) (now : Int) : PyVal :=
  match TokenFactory.validate_token reg token rule_name now with
  | Except.ok v => v
  | Except.error _ => PyVal.pynone

/-- Embeds `AuthenticateJWT.validate_token_type`
(authentication_classes.py lines 68-70):
`decoded_payload.get("type") == self.token_type`. -/
def AuthenticateJWT.validate_token_type (token_type : String)
    (decoded_payload : PyVal) : Except PyErr Bool := do
  let t ← pyvalGet decoded_payload "type"
  Except.ok (PyVal.beq t (PyVal.str token_type))

/-- Embeds `AuthenticateJWT.authenticate` (authentication_classes.py
lines 72-90): blacklist check first (returning `None` when
blacklisted), then decode (returning `None` when the decode result is
`None`), then the token-type check (returning `None` on mismatch),
else the payload.  The blacklist call is not guarded by any
`try`/`except`, so its `TypeError` propagates. -/
def AuthenticateJWT.authenticate (reg : JWTAuthenticationRules) (db : Database)
    (rule_name : Option String) (token_type : String) (token : PyVal)
    (now : Int) : Except PyErr PyVal := do
  let bl ← BlackListed.is_blacklisted reg db rule_name token
  if pyTruthy bl then Except.ok PyVal.pynone
  else
    match AuthenticateJWT.validate_token reg rule_name token now with
    | PyVal.pynone => Except.ok PyVal.pynone
    | payload => do
        let ok ← AuthenticateJWT.validate_token_type token_type payload
        if !ok then Except.ok PyVal.pynone else Except.ok payload

/-- Embeds `BaseAuthentication.authenticate_request`
(authentication_classes.py lines 40-55): the token handed to
`authenticate` is whatever `parse_token` returned. -/
def BaseAuthentication.authenticate_request (reg : JWTAuthenticationRules)
    (db : Database) (rule_name : Option String) (token_type : String)
    (request : HttpRequest) (now : Int) : Except PyErr PyVal :=
  AuthenticateJWT.authenticate reg db rule_name token_type
    (BaseAuthentication.parse_token request) now

/-- Embeds the decorator helper `get_instance` (decorators.py lines
93-114): resolve the ENTITY table from `get_table_path`, build the
lookup key `tablename + "_" + model_id_key_name`, read it from the
payload and fetch the instance. -/
def Decorators.get_instance (reg : JWTAuthenticationRules) (db : Database)
    (rule_name : Option String) (payload : PyVal)
    (model_id_key_name : String) : Except PyErr PyVal := do
  let path ← reg.get_table_path rule_name
  let table_class ← ModelManager.get_model db path
  let id_key_name := table_class.tablename ++ "_" ++ model_id_key_name
  let idv ← pyvalGet payload id_key_name
  Except.ok (ModelManager.get_instance db table_class [(model_id_key_name, idv)])

/-! Concrete configurations, modelled on `backend/settings.py` and the
validator defaults of `backend/admin/auth/validator.py` (field order as
produced by `JWTRuleDetails.model_dump`). -/

/-- The rule of the specification scenario: a 30-minute access TTL,
secret `"s"`, algorithm `HS256`, tracking and blacklisting disabled
(validator defaults for the remaining fields). -/
def demoRule : List (String × PyVal) :=
  [("description", PyVal.str "Token used to authenticate users"),
   ("access_expires_in", PyVal.timedelta 1800),
   ("refresh_expires_in", PyVal.pynone),
   ("algorithm", PyVal.str "HS256"),
   ("secret_key", PyVal.str "s"),
   ("table", PyVal.boolV false),
   ("table_path", PyVal.pynone),
   ("token_header", PyVal.str "Bearer "),
   ("track_created", PyVal.boolV false),
   ("track_created_table_path", PyVal.pynone),
   ("track_created_allow_duplicates", PyVal.boolV true),
   ("blacklisted", PyVal.boolV false),
   ("blacklisted_table_path", PyVal.pynone)]

/-- A registry holding only the scenario rule as the default rule. -/
def demoRules : JWTAuthenticationRules :=
  ⟨[("default", demoRule)], "default"⟩

/-- An otherwise empty persistence layer knowing the two model paths of
the repository. -/
def demoDb : Database :=
  ⟨[("backend.models.track_model.TrackModel", ⟨"tracks_model"⟩),
    ("backend.models.users.Users", ⟨"users"⟩)], []⟩

/-- A registered rule in which every optional field, in particular
`secret_key`, `algorithm` and the table paths, is absent. -/
def bareRule : List (String × PyVal) :=
  [("description", PyVal.str "rule with no other fields")]

/-- A registry holding only the bare rule. -/
def bareRules : JWTAuthenticationRules :=
  ⟨[("bare", bareRule)], "bare"⟩

/-- A rule with `track_created = True` and
`track_created_allow_duplicates = False`, as in the duplicate-tracking
scenario. -/
def trackRule : List (String × PyVal) :=
  [("description", PyVal.str "tracked tokens"),
   ("access_expires_in", PyVal.timedelta 1800),
   ("refresh_expires_in", PyVal.pynone),
   ("algorithm", PyVal.str "HS256"),
   ("secret_key", PyVal.str "s"),
   ("table", PyVal.boolV false),
   ("table_path", PyVal.pynone),
   ("token_header", PyVal.str "Bearer "),
   ("track_created", PyVal.boolV true),
   ("track_created_table_path", PyVal.str "backend.models.track_model.TrackModel"),
   ("track_created_allow_duplicates", PyVal.boolV false),
   ("blacklisted", PyVal.boolV false),
   ("blacklisted_table_path", PyVal.pynone)]

/-- A registry holding only the tracking rule. -/
def trackRules : JWTAuthenticationRules :=
  ⟨[("default", trackRule)], "default"⟩

/-- A persistence layer already holding a tracked token for entity 1 in
the `tracks_model` table. -/
def trackDb : Database :=
  ⟨[("backend.models.track_model.TrackModel", ⟨"tracks_model"⟩)],
    [("tracks_model",
      [[("token", PyVal.str "older-token"), ("instance_id", PyVal.intV 1),
        ("token_type", PyVal.str "access")]])]⟩

/-- A rule binding tokens to an entity table (`table = True` with an
entity `table_path`) and also tracking issuance in a differently named
track table. -/
def entityRule : List (String × PyVal) :=
  [("description", PyVal.str "entity bound tokens"),
   ("access_expires_in", PyVal.timedelta 1800),
   ("refresh_expires_in", PyVal.pynone),
   ("algorithm", PyVal.str "HS256"),
   ("secret_key", PyVal.str "s"),
   ("table", PyVal.boolV true),
   ("table_path", PyVal.str "backend.models.users.Users"),
   ("token_header", PyVal.str "Bearer "),
   ("track_created", PyVal.boolV false),
   ("track_created_table_path", PyVal.str "backend.models.track_model.TrackModel"),
   ("track_created_allow_duplicates", PyVal.boolV true),
   ("blacklisted", PyVal.boolV false),
   ("blacklisted_table_path", PyVal.pynone)]

/-- A registry holding only the entity-bound rule. -/
def entityRules : JWTAuthenticationRules :=
  ⟨[("default", entityRule)], "default"⟩

/-- A serialized claims dictionary for the codec round-trip: type
`"access"`, expiry at timestamp 100. -/
def c8Payload : List (String × PyVal) :=
  [("type", PyVal.str "access"), ("exp", PyVal.intV 100)]

/-! Claim theorems. -/

/-- C1: the spec scenario expects `generate_token()` under the rule
with a 30-minute access TTL, secret `"s"`, algorithm `"HS256"` and
tracking disabled
to return a token string whose immediate validation yields claims with
`type = "access"`.  In the code, `disallow_none` binds the instance to
its `value` parameter, so `get_token_lifetime` returns the registry
instance, and `required_payload` raises `TypeError` when adding it to
`datetime.now` -- issuance never returns a token.  Validation of any
value likewise yields `None` rather than claims, because the secret key
and algorithm handed to `jwt.decode` are the registry instance. -/
theorem c1_scenario_issuance_raises_type_error (now : Int) :
    TokenFactory.generate_token demoRules demoDb none PyVal.pynone (PyVal.dict [])
        false true [] now
      = (Except.error (PyErr.typeError "unsupported operand types for +"), demoDb) ∧
    (∀ tok : PyVal,
      TokenFactory.validate_token demoRules tok none now = Except.ok PyVal.pynone) := by
  refine ⟨rfl, ?_⟩
  intro tok
  cases tok <;> rfl

/-- C2: the spec expects each required-field accessor to raise
`JWTFieldValueError` when the field is empty/absent and to return the
stored value otherwise.  Because the bound `disallow_none` call tests
the instance instead of the field value, every such accessor returns
the registry instance itself, for every registered rule, no matter
whether the field is present or absent. -/
theorem c2_required_field_accessors_return_registry_instance
    (reg : JWTAuthenticationRules) (name : String) (d : List (String × PyVal))
    (token_type : String) (h : lookupRule reg name = some d) :
    reg.get_secret_key (some name) = Except.ok PyVal.registryObj ∧
    reg.get_algorithm (some name) = Except.ok PyVal.registryObj ∧
    reg.get_token_lifetime (some name) token_type = Except.ok PyVal.registryObj ∧
    reg.get_table_path (some name) = Except.ok PyVal.registryObj ∧
    reg.get_token_header (some name) = Except.ok PyVal.registryObj ∧
    reg.get_track_created_table_path (some name) = Except.ok PyVal.registryObj ∧
    reg.get_blacklisted_tabled_path (some name) = Except.ok PyVal.registryObj := by
  refine ⟨?_, ?_, ?_, ?_, ?_, ?_, ?_⟩ <;>
    simp [JWTAuthenticationRules.get_secret_key, JWTAuthenticationRules.get_algorithm,
      JWTAuthenticationRules.get_token_lifetime, JWTAuthenticationRules.get_table_path,
      JWTAuthenticationRules.get_token_header,
      JWTAuthenticationRules.get_track_created_table_path,
      JWTAuthenticationRules.get_blacklisted_tabled_path,
      JWTAuthenticationRules.get_rule, h, pyvalGet, disallow_none_boundCall] <;> rfl

/-- Witness for C2 at a concrete registry whose rule stores none of the
required fields: all seven accessors still return the registry
instance instead of raising. -/
theorem c2_witness :
    bareRules.get_secret_key (some "bare") = Except.ok PyVal.registryObj ∧
    bareRules.get_algorithm (some "bare") = Except.ok PyVal.registryObj ∧
    bareRules.get_token_lifetime (some "bare") "access" = Except.ok PyVal.registryObj ∧
    bareRules.get_table_path (some "bare") = Except.ok PyVal.registryObj ∧
    bareRules.get_token_header (some "bare") = Except.ok PyVal.registryObj ∧
    bareRules.get_track_created_table_path (some "bare") = Except.ok PyVal.registryObj ∧
    bareRules.get_blacklisted_tabled_path (some "bare") = Except.ok PyVal.registryObj :=
  c2_required_field_accessors_return_registry_instance bareRules "bare" bareRule
    "access" rfl

/-- C3: the spec expects `get_rule(None)` to return the same rule as
`get_rule(defaultRuleName)`.  The code returns `self.default_rule` --
the default rule NAME, a string -- for `None`, and the rule dictionary
for the explicit name, so the two results differ. -/
theorem c3_get_rule_none_returns_name_not_rule :
    (∀ reg : JWTAuthenticationRules, reg.get_rule none = PyVal.str reg.default_rule) ∧
    demoRules.get_rule none = PyVal.str "default" ∧
    demoRules.get_rule (some "default") = PyVal.dict demoRule ∧
    demoRules.get_rule none ≠ demoRules.get_rule (some "default") :=
  ⟨fun _ => rfl, rfl, rfl, fun h => PyVal.noConfusion h⟩

/-- C4: the spec expects `is_blacklisted` to return `False` for every
token under a rule with blacklisting disabled.  The code calls
`get_blacklisted()` without its required `rule_name` argument, so every
call raises `TypeError` -- for every registry (including the
blacklist-disabled scenario rule), database, rule name and token. -/
theorem c4_is_blacklisted_always_raises (reg : JWTAuthenticationRules)
    (db : Database) (rule_name : Option String) (token : PyVal) :
    BlackListed.is_blacklisted reg db rule_name token
      = Except.error
          (PyErr.typeError
            "get_blacklisted missing 1 required positional argument rule_name") := rfl

/-- C5: the spec expects the gate to extract the bearer value from the
request (stripping the `token_header` prefix) and feed it to the
pipeline.  `parse_token` is an unimplemented `pass` stub: it returns
`None` for every request, so `authenticate_request` always feeds `None`
to `authenticate`, and -- the blacklist call then raising `TypeError`
-- no request, however well-formed its bearer header, is ever
allowed. -/
theorem c5_parse_token_ignores_request (request : HttpRequest)
    (reg : JWTAuthenticationRules) (db : Database) (rule_name : Option String)
    (token_type : String) (now : Int) :
    BaseAuthentication.parse_token request = PyVal.pynone ∧
    BaseAuthentication.authenticate_request reg db rule_name token_type request now
      = AuthenticateJWT.authenticate reg db rule_name token_type PyVal.pynone now ∧
    BaseAuthentication.authenticate_request reg db rule_name token_type request now
      = Except.error
          (PyErr.typeError
            "get_blacklisted missing 1 required positional argument rule_name") :=
  ⟨rfl, rfl, rfl⟩

/-- C6: the spec expects blacklisted tokens to be denied without
decoding, invalid decodes to be denied, and wrong-type tokens to be
denied.  In the code the unguarded blacklist check raises `TypeError`
for every token, so `authenticate` never reaches the decode or type
check and never produces a clean deny (`None`); and even in isolation
the decode step maps every token -- including a correctly-signed one --
to `None`, because the secret key and algorithm it passes to
`jwt.decode` are the registry instance. -/
theorem c6_gate_crashes_before_decode_and_type_check
    (reg : JWTAuthenticationRules) (db : Database) (rule_name : Option String)
    (token_type : String) (token : PyVal) (now : Int) :
    AuthenticateJWT.authenticate reg db rule_name token_type token now
      = Except.error
          (PyErr.typeError
            "get_blacklisted missing 1 required positional argument rule_name") ∧
    (∀ p k a, AuthenticateJWT.validate_token demoRules (some "default")
        (PyVal.jwt p k a) now = PyVal.pynone) :=
  ⟨rfl, fun _ _ _ => rfl⟩

/-- C7: the spec expects a second issuance for an already-tracked
entity under `track_issuance=true, allow_duplicate_tracking=false` to
fail with the duplicate-tracking error, discarding the encoded token
and inserting no row.  In the code the issuance call raises `TypeError`
while building the payload, before any token is encoded and before the
tracker runs, and the database is unchanged; even `track_token` called
directly raises `ImportError` -- the track-table path it receives from
the registry accessor is the registry instance -- before the duplicate
check, so `ValueError("Token already exists for the instance ID")` is
unreachable. -/
theorem c7_duplicate_tracking_error_unreachable (now : Int) :
    TokenFactory.generate_token trackRules trackDb (some "default") (PyVal.intV 1)
        (PyVal.dict []) false true [] now
      = (Except.error (PyErr.typeError "unsupported operand types for +"), trackDb) ∧
    TokenFactory.track_token trackRules trackDb (some "default")
        (PyVal.str "fresh-token") (PyVal.intV 1) "access" []
      = Except.error
          (PyErr.importError
            "Invalid object path: object path must be a non-empty string") :=
  ⟨rfl, rfl⟩

/-- C8: the codec round-trip law, on the wrapper `PyJWT.encode_token` /
`PyJWT.decode_token` over the modelled `jwt` library.  For every
already-serialized claims dictionary carrying an integer `exp` claim
at timestamp `t`, and every string secret key and algorithm: encoding
yields a token whose decode with the same key and algorithm reproduces
the claims exactly while `now ≤ t`, yields `None` (the Invalid result)
once `t < now`, and yields `None` under any `wrongKey` different from
the signing key. -/
theorem c8_codec_roundtrip_and_rejection (p : List (String × PyVal))
    (key alg wrongKey : String) (t now : Int)
    (hser : serializePayload p = Except.ok p)
    (hexp : p.find? (fun kv => kv.1 == "exp") = some ("exp", PyVal.intV t)) :
    PyJWT.encode_token p (PyVal.str key) (PyVal.str alg) []
      = Except.ok (PyVal.jwt p key alg) ∧
    (now ≤ t →
      PyJWT.decode_token (PyVal.jwt p key alg) (PyVal.str key) (PyVal.str alg) now
        = Except.ok (PyVal.dict p)) ∧
    (t < now →
      PyJWT.decode_token (PyVal.jwt p key alg) (PyVal.str key) (PyVal.str alg) now
        = Except.ok PyVal.pynone) ∧
    (wrongKey ≠ key →
      PyJWT.decode_token (PyVal.jwt p key alg) (PyVal.str wrongKey) (PyVal.str alg) now
        = Except.ok PyVal.pynone) := by
  refine ⟨?_, ?_, ?_, ?_⟩
  · simp only [PyJWT.encode_token, jwt_encode, hser]
    rfl
  · intro hle
    have hnlt : ¬ (t < now) := by omega
    simp [PyJWT.decode_token, jwt_decode, PyVal.beq, hexp, hnlt]
  · intro hlt
    simp [PyJWT.decode_token, jwt_decode, PyVal.beq, hexp, hlt]
  · intro hne
    simp [PyJWT.decode_token, jwt_decode, PyVal.beq, hne]

/-- Witness for C8 at the concrete claims dictionary with type
`"access"` and expiry 100
under key `"s"` and algorithm `"HS256"`: decode at time 40 reproduces
the claims, decode at time 200 is Invalid, and decode with key `"w"`
is Invalid. -/
theorem c8_codec_witness :
    PyJWT.encode_token c8Payload (PyVal.str "s") (PyVal.str "HS256") []
      = Except.ok (PyVal.jwt c8Payload "s" "HS256") ∧
    PyJWT.decode_token (PyVal.jwt c8Payload "s" "HS256") (PyVal.str "s")
        (PyVal.str "HS256") 40
      = Except.ok (PyVal.dict c8Payload) ∧
    PyJWT.decode_token (PyVal.jwt c8Payload "s" "HS256") (PyVal.str "s")
        (PyVal.str "HS256") 200
      = Except.ok PyVal.pynone ∧
    PyJWT.decode_token (PyVal.jwt c8Payload "s" "HS256") (PyVal.str "w")
        (PyVal.str "HS256") 40
      = Except.ok PyVal.pynone := by
  have h40 := c8_codec_roundtrip_and_rejection c8Payload "s" "HS256" "w" 100 40
    rfl rfl
  have h200 := c8_codec_roundtrip_and_rejection c8Payload "s" "HS256" "w" 100 200
    rfl rfl
  exact ⟨h40.1, h40.2.1 (by norm_num), h200.2.2.1 (by norm_num),
    h40.2.2.2 (by decide)⟩

/-- C9: the spec expects issuance to embed the entity id under the key
`tablename + "_id"` derived from the rule entity table (`table_path`),
matching the gate lookup key derived from the same table.  In the code
`instance_id_payload` reads the TRACK table path accessor (and, through
the `disallow_none` bug, receives the registry instance, so model
resolution raises `ImportError` and no claim key is ever embedded); the
gate helper `get_instance` reads the entity table accessor and fails
the same way.  Only the non-null requirement on the entity id behaves
as claimed. -/
theorem c9_entity_key_derivation_fails (db : Database) (payload : PyVal)
    (mid : String) :
    TokenFactory.instance_id_payload entityRules db (some "default")
        (PyVal.intV 7) true
      = Except.error
          (PyErr.importError
            "Invalid object path: object path must be a non-empty string") ∧
    Decorators.get_instance entityRules db (some "default") payload mid
      = Except.error
          (PyErr.importError
            "Invalid object path: object path must be a non-empty string") ∧
    TokenFactory.instance_id_payload entityRules db (some "default")
        PyVal.pynone true
      = Except.error (PyErr.valueError "Instance ID cannot be None") :=
  ⟨rfl, rfl, rfl⟩

/-- C10: the claim reads `build_payload` as merging the caller extra
payload over the built claims inside the signed token.  The merge line
is indeed last in the source, but `build_payload` raises `TypeError` in
its first step (`required_payload` adds the registry instance to
`datetime.now`) for every token type, rule and extra payload, so no
issuance ever signs a token -- with or without a spoofed `"type"`
entry. -/
theorem c10_extra_payload_merge_never_signed (now : Int) (extra : PyVal)
    (token_type : String) (include_rule_name : Bool) :
    TokenFactory.build_payload demoRules demoDb token_type (some "default")
        PyVal.pynone extra include_rule_name true now
      = Except.error (PyErr.typeError "unsupported operand types for +") ∧
    (TokenFactory.generate_token demoRules demoDb none PyVal.pynone
        (PyVal.dict [("type", PyVal.str "spoofed")]) false true [] now).1
      = Except.error (PyErr.typeError "unsupported operand types for +") :=
  ⟨rfl, rfl⟩

end FlaskAuth
